import Mathlib

/-!
Shallow embedding of `src/medication.py` (SystmOnline Medication Fetcher).

The program logs into a web portal, scrapes hidden form fields and a
medication table out of server-rendered HTML, and replays a two-phase
form submission to order medications.  HTML pages are modelled by the
features the code queries on them: the `span#errorText` element, the
`POST` forms with their hidden inputs, and the `<tr>` rows of the
medication table.  HTTP responses are modelled by their final URL, their
parsed body and their `ok` flag.  Network interaction is modelled by
passing the responses the server would produce as parameters and by
recording the performed actions in an event trace.
-/

namespace SystmOnline

/-- An `<input>` tag as queried by the code: its `type`, `name` and
`value` attributes (each possibly absent). -/
structure InputTag where
  type : Option String
  name : Option String
  value : Option String
deriving DecidableEq, Repr

/-- A `<form>` tag: its `method` and `action` attributes and the input
tags found inside it (in document order). -/
structure Form where
  method : String
  action : String
  inputs : List InputTag
deriving DecidableEq, Repr

/-- A `<tr>` row of the medication table, abstracted to the features
`query_medications` reads: the number of `<td>` cells, the value of the
first `type=CHECKBOX` input found anywhere in the row (if any — real
checkboxes carry their `value` attribute), the text of the `<h3>` inside
the second cell (if any), and the free detail text of the second cell
after the drug name has been removed. -/
structure MedRow where
  cellCount : Nat
  checkboxVal : Option String
  drugHeading : Option String
  detailText : String
deriving DecidableEq, Repr

/-- A parsed HTML page (`BeautifulSoup` result), abstracted to the
features the code queries: the text of `span#errorText` if present, the
forms of the page in document order, and the table rows in document
order. -/
structure Page where
  errorSpan : Option String
  forms : List Form
  rows : List MedRow
deriving DecidableEq, Repr

/-- An HTTP response as the code consumes it: final URL after
redirects, parsed body, and HTTP-level `ok` flag. -/
structure HttpResponse where
  url : String
  page : Page
  ok : Bool
deriving DecidableEq, Repr

/-! ### Python string primitives used by the code -/

/-- ASCII whitespace, as matched by Python `str.strip()` and by `\s`
in the date regular expressions. -/
def isPySpace (c : Char) : Bool :=
  c = ' ' || c = '\t' || c = '\n' || c = '\r' || c = '\x0b' || c = '\x0c'

/-- Python `str.strip()` on a character list: drop leading and trailing
whitespace. -/
def stripChars (l : List Char) : List Char :=
  ((l.dropWhile isPySpace).reverse.dropWhile isPySpace).reverse

/-- Python `str.strip()`. -/
def pyStrip (s : String) : String :=
  ⟨stripChars s.data⟩

/-- Does `hay` start with `needle`? -/
def isPre (needle hay : List Char) : Bool :=
  match needle, hay with
  | [], _ => true
  | _ :: _, [] => false
  | a :: as, b :: bs => a = b && isPre as bs

/-- Does `hay` contain `needle` as a contiguous substring?  Models the
Python `in` operator on strings. -/
def hasSub (needle : List Char) : List Char → Bool
  | [] => isPre needle []
  | c :: rest => isPre needle (c :: rest) || hasSub needle rest

/-- Python `needle in hay` for strings. -/
def pyContains (hay needle : String) : Bool :=
  hasSub needle.data hay.data

/-! ### `login` (src/medication.py lines 29–56)

```python
error_span = self.soup.find("span", {"id": "errorText"})
if error_span:
    return False, error_span.text.strip()
elif "MainMenu" in response.url:
    return True, ""
else:
    return False, "Login status unknown. Check the response."
```
-/

/-- The classification `login` performs on the response to the login
POST: a `(success, message)` pair. -/
def login (r : HttpResponse) : Bool × String :=
  match r.page.errorSpan with
  | some t => (false, pyStrip t)
  | none =>
    if pyContains r.url "MainMenu" then (true, "")
    else (false, "Login status unknown. Check the response.")

/-! ### `extract_form_data` (src/medication.py lines 58–83)

```python
form = self.soup.find("form", {"method": "POST", "action": action})
if not form:
    return None
form_data = {}
for input_tag in form.find_all("input", {"type": "HIDDEN"}):
    name = input_tag.get("name")
    value = input_tag.get("value", "")
    if name in form_data:
        if not isinstance(form_data[name], list):
            form_data[name] = [form_data[name]]
        form_data[name].append(value)
    else:
        form_data[name] = value
return form_data
```
-/

/-- A value in the extracted form dictionary: a plain string, or the
list a name's values are collapsed into when the name repeats. -/
inductive FieldVal where
  | single (v : String)
  | multi (vs : List String)
deriving DecidableEq, Repr

/-- The extracted form dictionary: an insertion-ordered mapping from
input `name` attribute (possibly absent, hence `Option String`) to
value(s).  Models a Python `dict`. -/
abbrev FormData : Type := List (Option String × FieldVal)

/-- Dictionary lookup (first — and, for the dictionaries the code
builds, only — entry with the given key). -/
def lookup : FormData → Option String → Option FieldVal
  | [], _ => none
  | e :: rest, k => if e.1 = k then some e.2 else lookup rest k

/-- Append `v` to an existing entry's value, collapsing a single value
into a two-element list (`form_data[name].append(value)` after the
`isinstance` normalisation). -/
def pushVal (fv : FieldVal) (v : String) : FieldVal :=
  match fv with
  | .single w => .multi [w, v]
  | .multi ws => .multi (ws ++ [v])

/-- One iteration of the extraction loop: insert a fresh `(name, value)`
pair, or append the value to the entry its name already has. -/
def dictStep (fd : FormData) (p : Option String × String) : FormData :=
  if (lookup fd p.1).isSome then
    fd.map (fun e => if e.1 = p.1 then (e.1, pushVal e.2 p.2) else e)
  else
    fd ++ [(p.1, .single p.2)]

/-- The hidden inputs of a form, as the loop visits them:
`form.find_all("input", {"type": "HIDDEN"})` with
`input_tag.get("name")` and `input_tag.get("value", "")`. -/
def hiddenPairs (f : Form) : List (Option String × String) :=
  (f.inputs.filter (fun i => i.type = some "HIDDEN")).map
    (fun i => (i.name, i.value.getD ""))

/-- The match performed by
`soup.find("form", {"method": "POST", "action": action})`. -/
def formMatches (action : String) (f : Form) : Bool :=
  f.method = "POST" && f.action = action

/-- `extract_form_data(action)`: find the first `POST` form with the
given action; `None` if absent, otherwise the dictionary of its hidden
inputs. -/
def extract_form_data (page : Page) (action : String) : Option FormData :=
  match page.forms.find? (formMatches action) with
  | none => none
  | some form => some (hiddenPairs form |>.foldl dictStep [])

/-- Python truthiness of the value the callers test with
`if not post_data:` — `None` and the empty dict `{}` are both falsy. -/
def isFalsy (r : Option FormData) : Bool :=
  match r with
  | none => true
  | some [] => true
  | some (_ :: _) => false

/-! ### Date extraction (src/medication.py lines 114–115)

```python
last_issued = re.search(r"Last Issued:\s*(\d{1,2}\s[A-Za-z]{3}\s\d{4})", details)
last_requested = re.search(r"Last requested\s*(\d{1,2}\s[A-Za-z]{3}\s\d{2})", details)
```

The two fixed patterns are embedded directly: a literal, `\s*`, then the
captured group `\d{1,2}\s[A-Za-z]{3}\s\d{k}` with `k = 4` (issued) or
`k = 2` (requested).  `re.search` semantics: leftmost starting
position, and at a given position the greedy `\d{1,2}` tries two digits
before one.  (`\s*` followed by `\d` needs no backtracking because
whitespace and digits are disjoint.)
-/

/-- Exactly `k` digits: the consumed characters, or `none`. -/
def digitsExact : Nat → List Char → Option (List Char)
  | 0, _ => some []
  | _ + 1, [] => none
  | k + 1, c :: rest =>
    if c.isDigit then (digitsExact k rest).map (c :: ·) else none

/-- The `\s[A-Za-z]{3}\s\d{k}` tail of the date group. -/
def matchMonYear (yk : Nat) (l : List Char) : Option (List Char) :=
  match l with
  | s1 :: m1 :: m2 :: m3 :: s2 :: rest =>
    if isPySpace s1 && m1.isAlpha && m2.isAlpha && m3.isAlpha && isPySpace s2 then
      (digitsExact yk rest).map (fun ds => s1 :: m1 :: m2 :: m3 :: s2 :: ds)
    else none
  | _ => none

/-- The captured group `\d{1,2}\s[A-Za-z]{3}\s\d{yk}` at the start of
`l`: greedy on the day (two digits tried before one). -/
def matchDMY (yk : Nat) (l : List Char) : Option (List Char) :=
  match l with
  | [] => none
  | c1 :: rest1 =>
    if c1.isDigit then
      match rest1 with
      | c2 :: rest2 =>
        if c2.isDigit then
          match matchMonYear yk rest2 with
          | some g => some (c1 :: c2 :: g)
          | none => (matchMonYear yk rest1).map (c1 :: ·)
        else (matchMonYear yk rest1).map (c1 :: ·)
      | [] => none
    else none

/-- Consume a literal: `some rest` when `l = lit ++ rest`. -/
def consumeLit (lit l : List Char) : Option (List Char) :=
  match lit, l with
  | [], _ => some l
  | _ :: _, [] => none
  | a :: as, b :: bs => if a = b then consumeLit as bs else none

/-- The whole pattern anchored at the start of `l`: literal, `\s*`,
then the date group; produces the captured group. -/
def matchPatAt (lit : List Char) (yk : Nat) (l : List Char) : Option (List Char) :=
  match consumeLit lit l with
  | none => none
  | some rest => matchDMY yk (rest.dropWhile isPySpace)

/-- `re.search`: try the pattern at every position, leftmost first. -/
def searchPat (lit : List Char) (yk : Nat) : List Char → Option (List Char)
  | [] => matchPatAt lit yk []
  | c :: rest =>
    match matchPatAt lit yk (c :: rest) with
    | some g => some g
    | none => searchPat lit yk rest

/-- `m.group(1) if m else ""` for the last-issued pattern
`Last Issued:\s*(\d{1,2}\s[A-Za-z]{3}\s\d{4})`. -/
def extractLastIssued (details : String) : String :=
  match searchPat "Last Issued:".data 4 details.data with
  | some g => ⟨g⟩
  | none => ""

/-- `m.group(1) if m else ""` for the last-requested pattern
`Last requested\s*(\d{1,2}\s[A-Za-z]{3}\s\d{2})`. -/
def extractLastRequested (details : String) : String :=
  match searchPat "Last requested".data 2 details.data with
  | some g => ⟨g⟩
  | none => ""

/-! ### `query_medications` row parsing (src/medication.py lines 101–117) -/

/-- One record appended to `medications`:
`[med_id, drug_name, last_issued, last_requested, can_order]`. -/
structure MedRecord where
  id : Option String
  name : String
  lastIssued : String
  lastRequested : String
  canOrder : String
deriving DecidableEq, Repr

/-- The per-row body of the parsing loop: `None` when the row is
skipped (fewer than two cells, or no `<h3>` drug heading in the second
cell), otherwise the record built from the row. -/
def parseRow (r : MedRow) : Option MedRecord :=
  if r.cellCount < 2 then none
  else
    match r.drugHeading with
    | none => none
    | some h =>
      some { id := r.checkboxVal
             name := pyStrip h
             lastIssued := extractLastIssued r.detailText
             lastRequested := extractLastRequested r.detailText
             canOrder := if r.checkboxVal.isSome then "Yes" else "No" }

/-- The table parse: `soup.find_all("tr")[1:]` (skip the header row),
then the loop, collecting records in row order. -/
def parseMedTable (rows : List MedRow) : List MedRecord :=
  (rows.drop 1).filterMap parseRow

/-- Outcome of `query_medications` up to the display step: either the
early abort on a falsy extraction, or the parsed record list handed to
`display_medications`. -/
inductive QueryOutcome where
  | unableToRetrieve
  | medList (records : List MedRecord)
deriving DecidableEq, Repr

/-- `query_medications`: extract the hidden state of the `Medication`
form from the current page; abort if falsy; otherwise POST it and parse
the response's table.  `medPage` is the body of the server's response
to that POST. -/
def query_medications (page : Page) (medPage : Page) : QueryOutcome :=
  if isFalsy (extract_form_data page "Medication") then .unableToRetrieve
  else .medList (parseMedTable medPage.rows)

/-! ### `order_medications` (src/medication.py lines 173–202)

```python
if not med_ids:
    print("No medications selected for ordering.")
    return
post_data = self.extract_form_data("RequestMedication")
if not post_data:
    print("Error: Unable to retrieve request form.")
    return
post_data.update({"Drug": med_ids, "MedRequestType": "Request existing medication"})
response = self.session.post(f"{self.BASE_URL}/2/RequestMedication", data=post_data)
self.soup = BeautifulSoup(response.text, "html.parser")
post_data = self.extract_form_data("RequestMedication")
if not post_data:
    print("Error: Unable to retrieve request form.")
    return
response = self.session.post(f"{self.BASE_URL}/2/RequestMedication", data=post_data)
print("Medication request submitted successfully." if response.ok else ...)
```
-/

/-- Python `dict.update` for one key: replace in place, or append. -/
def dictSet (fd : FormData) (k : Option String) (v : FieldVal) : FormData :=
  if (lookup fd k).isSome then
    fd.map (fun e => if e.1 = k then (e.1, v) else e)
  else fd ++ [(k, v)]

/-- The payload of the first order POST: the extracted hidden state
updated with the selected ids and the request type. -/
def orderPayload (d : FormData) (ids : List String) : FormData :=
  dictSet (dictSet d (some "Drug") (.multi ids))
    (some "MedRequestType") (.single "Request existing medication")

/-- Observable actions of the order flow, in execution order: a server
response body arriving (and becoming `self.soup`), a hidden-state
extraction reading a page, and a POST submission with its payload. -/
inductive Ev where
  | respEv (p : Page)
  | extractEv (p : Page)
  | postEv (action : String) (data : FormData)
deriving DecidableEq, Repr

/-- Outcome of `order_medications`, one constructor per `print`/return
path of the code. -/
inductive OrderResult where
  | noSelection
  | formMissing1
  | formMissing2
  | submitted (success : Bool)
deriving DecidableEq, Repr

/-- The environment of one `order_medications` run: the page held in
`self.soup` on entry, and the two responses the server would give to
the two POSTs. -/
structure OrderEnv where
  page0 : Page
  resp1 : HttpResponse
  resp2 : HttpResponse
deriving DecidableEq, Repr

/-- `order_medications(med_ids)`: result, event trace, and the page
held in `self.soup` afterwards.  (The second POST never updates
`self.soup`; only its `ok` flag is read.) -/
def order_medications (ids : List String) (env : OrderEnv) :
    OrderResult × List Ev × Page :=
  if ids = [] then (.noSelection, [], env.page0)
  else
    let d1 := extract_form_data env.page0 "RequestMedication"
    if isFalsy d1 then (.formMissing1, [.extractEv env.page0], env.page0)
    else
      let data1 := orderPayload (d1.getD []) ids
      let d2 := extract_form_data env.resp1.page "RequestMedication"
      if isFalsy d2 then
        (.formMissing2,
         [.extractEv env.page0, .postEv "RequestMedication" data1,
          .respEv env.resp1.page, .extractEv env.resp1.page],
         env.resp1.page)
      else
        (.submitted env.resp2.ok,
         [.extractEv env.page0, .postEv "RequestMedication" data1,
          .respEv env.resp1.page, .extractEv env.resp1.page,
          .postEv "RequestMedication" (d2.getD []),
          .respEv env.resp2.page],
         env.resp1.page)

/-- Number of POST submissions in a trace. -/
def postCount (tr : List Ev) : Nat :=
  tr.countP (fun e => match e with | .postEv _ _ => true | _ => false)

/-- Freshness check on a trace: walking the events with the page of the
most recent response (`lr`) and a flag saying whether the hidden state
was extracted from `lr` since the last response/submission, every POST
must happen with that flag set.  This formalises "hidden state is
re-fetched fresh from the most recent server response before every
submission". -/
def freshOK (tr : List Ev) (lr : Page) (fresh : Bool) : Bool :=
  match tr with
  | [] => true
  | .respEv p :: es => freshOK es p false
  | .extractEv p :: es => freshOK es lr (if p = lr then true else false)
  | .postEv _ _ :: es => fresh && freshOK es lr false

/-! ### `prompt_order_medications` (src/medication.py lines 156–171)

```python
try:
    user_input = input(...)
    selected_indices = [(int(x.strip())-1) for x in user_input.split(",")]
    ordered_medications = df.iloc[selected_indices].reset_index(drop=True)
    ...
    return ordered_medications["ID"].tolist()
except ValueError:
    print("Invalid input. Please enter numbers separated by commas.")
    return []
```

`int()` raises `ValueError` on a non-integer entry (caught);
`df.iloc[list]` raises `IndexError` on an out-of-range position (not
caught — only `ValueError` is).
-/

/-- Python `str.split(",")` (no maxsplit): always non-empty, keeps
empty pieces. -/
def splitCommaGo : List Char → List Char → List (List Char)
  | [], acc => [acc.reverse]
  | c :: rest, acc =>
    if c = ',' then acc.reverse :: splitCommaGo rest []
    else splitCommaGo rest (c :: acc)

/-- Python `str.split(",")`. -/
def splitComma (l : List Char) : List (List Char) :=
  splitCommaGo l []

/-- Value of a decimal digit character. -/
def digitVal (c : Char) : Nat := c.toNat - '0'.toNat

/-- Digits with optional single underscores between digits, as accepted
by Python `int()` after the leading digit. -/
def digitsUGo (acc : Nat) : List Char → Option Nat
  | [] => some acc
  | '_' :: [] => none
  | '_' :: d :: rest =>
    if d.isDigit then digitsUGo (acc * 10 + digitVal d) rest else none
  | c :: rest =>
    if c.isDigit then digitsUGo (acc * 10 + digitVal c) rest else none

/-- The digit part of a Python integer literal: non-empty, starts and
ends with a digit, single underscores allowed between digits. -/
def digitsU : List Char → Option Nat
  | [] => none
  | c :: rest => if c.isDigit then digitsUGo (digitVal c) rest else none

/-- Python `int(s)` on an already-stripped string: optional sign, then
digits; `none` models the `ValueError`. -/
def pyIntCore : List Char → Option Int
  | '+' :: rest => (digitsU rest).map Int.ofNat
  | '-' :: rest => (digitsU rest).map (fun n => -(n : Int))
  | l => (digitsU l).map Int.ofNat

/-- `int(x.strip())` on one comma-separated piece. -/
def pyIntStripped (piece : List Char) : Option Int :=
  pyIntCore (stripChars piece)

/-- Effectful map over a list in left-to-right order, failing at the
first failure — the Python list comprehension's evaluation order. -/
def mapOpt (f : α → Option β) : List α → Option (List β)
  | [] => some []
  | a :: l =>
    match f a with
    | none => none
    | some b => (mapOpt f l).map (b :: ·)

/-- `[(int(x.strip())-1) for x in user_input.split(",")]`: `none`
models the `ValueError` (caught by the handler). -/
def parseIndices (input : String) : Option (List Int) :=
  mapOpt (fun piece => (pyIntStripped piece).map (· - 1)) (splitComma input.data)

/-- A single positional index for `df.iloc` on a frame of `n` rows:
negative indices count from the end; out of range is `IndexError`. -/
def ilocIdx (n : Nat) (i : Int) : Option Nat :=
  if 0 ≤ i then (if i < (n : Int) then some i.toNat else none)
  else (if -(n : Int) ≤ i then some ((n : Int) + i).toNat else none)

/-- Outcome of `prompt_order_medications`: the returned id selection
(with a flag recording whether the invalid-input message was printed),
or the uncaught `IndexError`. -/
inductive PromptOutcome where
  | selection (ids : List (Option String)) (invalidMsg : Bool)
  | indexError
deriving DecidableEq, Repr

/-- `prompt_order_medications`: `input` is the line the user typed,
`table` the rows of the displayed (orderable) frame in order. -/
def prompt_order_medications (input : String) (table : List MedRecord) :
    PromptOutcome :=
  match parseIndices input with
  | none => .selection [] true
  | some idxs =>
    match mapOpt
        (fun i => (ilocIdx table.length i).bind
          (fun j => (table.get? j).map (fun r => r.id))) idxs with
    | none => .indexError
    | some ids => .selection ids false

/-! ## Helper lemmas about the form-data dictionary -/

/-- The values recorded under key `k`, read back off the dictionary:
`[]` when absent, the one value of a `single`, the list of a `multi`. -/
def valsIn (fd : FormData) (k : Option String) : List String :=
  match lookup fd k with
  | none => []
  | some (.single v) => [v]
  | some (.multi vs) => vs

/-- The values of the hidden inputs named `k` in form `f`, in document
order. -/
def hiddenVals (f : Form) (k : Option String) : List String :=
  ((hiddenPairs f).filter (fun p => p.1 = k)).map Prod.snd

/-- Invariant of built dictionaries: a `multi` always holds at least
two values (it is only ever created by collapsing a duplicate). -/
def goodFV : FieldVal → Prop
  | .single _ => True
  | .multi vs => 2 ≤ vs.length

/-! ## Concrete fixtures used to instantiate the theorems -/

/-- A `POST Medication` form with a duplicate hidden name `a`, a
hidden `b` without a `value` attribute, and a non-hidden input. -/
def formW : Form :=
  ⟨"POST", "Medication",
    [⟨some "HIDDEN", some "a", some "1"⟩, ⟨some "HIDDEN", some "a", some "2"⟩,
     ⟨some "HIDDEN", some "b", none⟩, ⟨some "TEXT", some "c", some "x"⟩]⟩

/-- A page carrying `formW`. -/
def pageW : Page := ⟨none, [formW], []⟩

/-- The dictionary extracted from `formW`. -/
def fdW : FormData :=
  [(some "a", .multi ["1", "2"]), (some "b", .single "")]

/-- A page with no forms at all. -/
def pageNoForms : Page := ⟨none, [], []⟩

/-- A `POST Medication` form whose only input is not hidden. -/
def pageEmptyMed : Page :=
  ⟨none, [⟨"POST", "Medication", [⟨some "TEXT", some "c", some "x"⟩]⟩], []⟩

/-- A `POST RequestMedication` form with one hidden input. -/
def pageRM : Page :=
  ⟨none, [⟨"POST", "RequestMedication", [⟨some "HIDDEN", some "t", some "x"⟩]⟩], []⟩

/-- A `POST RequestMedication` form with no hidden inputs. -/
def pageEmptyRM : Page :=
  ⟨none, [⟨"POST", "RequestMedication", []⟩], []⟩

/-- A one-row medication record table. -/
def medW : MedRecord := ⟨some "id1", "Drug", "", "", "Yes"⟩

theorem lookup_map_push (fd : FormData) (n : Option String) (v : String)
    (k : Option String) :
    lookup (fd.map (fun e => if e.1 = n then (e.1, pushVal e.2 v) else e)) k
      = (lookup fd k).map (fun fv => if k = n then pushVal fv v else fv) := by
  induction fd with
  | nil => rfl
  | cons e rest ih =>
    by_cases he : e.1 = n
    · by_cases hk : e.1 = k
      · have hkn : k = n := by rw [← hk, he]
        simp [lookup, he, hk, hkn]
      · have hnk : ¬n = k := fun h => hk (he.trans h)
        simp [lookup, he, hk, hnk, ih]
    · by_cases hk : e.1 = k
      · have hkn : ¬k = n := fun h => he (hk.trans h)
        simp [lookup, he, hk, hkn]
      · simp [lookup, he, hk, ih]

theorem lookup_append (fd1 fd2 : FormData) (k : Option String) :
    lookup (fd1 ++ fd2) k
      = if (lookup fd1 k).isSome then lookup fd1 k else lookup fd2 k := by
  induction fd1 with
  | nil => simp [lookup]
  | cons e rest ih =>
    by_cases he : e.1 = k <;> simp [lookup, he, ih]

theorem valsIn_dictStep (fd : FormData) (p : Option String × String)
    (k : Option String) :
    valsIn (dictStep fd p) k
      = if p.1 = k then valsIn fd k ++ [p.2] else valsIn fd k := by
  by_cases hpk : p.1 = k
  · subst hpk
    rw [if_pos rfl]
    unfold dictStep
    cases hl : lookup fd p.1 with
    | none =>
      simp only [hl, Option.isSome_none, Bool.false_eq_true, if_false]
      rw [valsIn, lookup_append, hl]
      simp [lookup, valsIn, hl]
    | some fv =>
      simp only [hl, Option.isSome_some, if_true]
      rw [valsIn, lookup_map_push, hl]
      cases fv <;> simp [pushVal, valsIn, hl]
  · rw [if_neg hpk]
    unfold dictStep
    cases hl : lookup fd p.1 with
    | none =>
      simp only [hl, Option.isSome_none, Bool.false_eq_true, if_false]
      rw [valsIn, lookup_append]
      cases hl2 : lookup fd k with
      | none => simp [hl2, lookup, hpk, valsIn]
      | some fv => cases fv <;> simp [hl2, valsIn]
    | some fv =>
      simp only [hl, Option.isSome_some, if_true]
      rw [valsIn, lookup_map_push]
      have hkp : ¬k = p.1 := fun h => hpk h.symm
      cases hl2 : lookup fd k with
      | none => simp [valsIn, hl2]
      | some fv2 => cases fv2 <;> simp [valsIn, hl2, hkp]

theorem valsIn_build (pairs : List (Option String × String)) (fd : FormData)
    (k : Option String) :
    valsIn (pairs.foldl dictStep fd) k
      = valsIn fd k ++ (pairs.filter (fun p => p.1 = k)).map Prod.snd := by
  induction pairs generalizing fd with
  | nil => simp
  | cons p rest ih =>
    rw [List.foldl_cons, ih, valsIn_dictStep]
    by_cases hpk : p.1 = k <;> simp [hpk, List.filter_cons, List.append_assoc]

theorem goodFV_push (fv : FieldVal) (v : String) (h : goodFV fv) :
    goodFV (pushVal fv v) := by
  cases fv with
  | single w => simp [pushVal, goodFV]
  | multi ws => simp [pushVal, goodFV] at *; omega

theorem good_dictStep (fd : FormData) (p : Option String × String)
    (h : ∀ e ∈ fd, goodFV e.2) : ∀ e ∈ dictStep fd p, goodFV e.2 := by
  unfold dictStep
  by_cases hs : (lookup fd p.1).isSome
  · simp only [hs, if_true]
    intro e he
    rw [List.mem_map] at he
    obtain ⟨e', he', heq⟩ := he
    subst heq
    by_cases h2 : e'.1 = p.1
    · simp only [h2, if_true]
      exact goodFV_push _ _ (h e' he')
    · simp only [h2, if_false]
      exact h e' he'
  · simp only [hs, Bool.false_eq_true, if_false]
    intro e he
    rcases List.mem_append.mp he with h1 | h2
    · exact h e h1
    · rw [List.mem_singleton] at h2
      subst h2
      trivial

theorem good_build (pairs : List (Option String × String)) (fd : FormData)
    (h : ∀ e ∈ fd, goodFV e.2) : ∀ e ∈ pairs.foldl dictStep fd, goodFV e.2 := by
  induction pairs generalizing fd with
  | nil => exact h
  | cons p rest ih => exact ih _ (good_dictStep fd p h)

theorem lookup_good (fd : FormData) (k : Option String) (fv : FieldVal)
    (h : ∀ e ∈ fd, goodFV e.2) (hl : lookup fd k = some fv) : goodFV fv := by
  induction fd with
  | nil => simp [lookup] at hl
  | cons e rest ih =>
    rw [lookup] at hl
    by_cases he : e.1 = k
    · rw [if_pos he] at hl
      cases hl
      exact h e (List.mem_cons_self e rest)
    · rw [if_neg he] at hl
      exact ih (fun e' he' => h e' (List.mem_cons_of_mem e he')) hl

/-! ## Claim theorems -/

/-- Claim C1: `login` classifies every response in exactly three ways,
checking the error element first: a present error element yields
failure with its trimmed text regardless of the final URL; otherwise a
final URL containing `MainMenu` yields success with an empty message;
otherwise the ambiguous failure with the fixed message. -/
theorem login_classification (r : HttpResponse) :
    (∀ t, r.page.errorSpan = some t → login r = (false, pyStrip t)) ∧
    (r.page.errorSpan = none → pyContains r.url "MainMenu" = true →
      login r = (true, "")) ∧
    (r.page.errorSpan = none → pyContains r.url "MainMenu" = false →
      login r = (false, "Login status unknown. Check the response.")) := by
  refine ⟨?_, ?_, ?_⟩
  · intro t ht
    simp [login, ht]
  · intro h1 h2
    simp [login, h1, h2]
  · intro h1 h2
    simp [login, h1, h2]

theorem login_classification_witness :
    login ⟨"https://systmonline.tpp-uk.com/2/MainMenu",
      ⟨some " Bad credentials ", [], []⟩, true⟩ = (false, "Bad credentials") ∧
    login ⟨"https://systmonline.tpp-uk.com/2/MainMenu", ⟨none, [], []⟩, true⟩
      = (true, "") ∧
    login ⟨"https://systmonline.tpp-uk.com/2/Login", ⟨none, [], []⟩, true⟩
      = (false, "Login status unknown. Check the response.") := by
  refine ⟨?_, ?_, ?_⟩
  · have h := (login_classification ⟨"https://systmonline.tpp-uk.com/2/MainMenu",
      ⟨some " Bad credentials ", [], []⟩, true⟩).1 " Bad credentials " rfl
    rwa [show pyStrip " Bad credentials " = "Bad credentials" by decide] at h
  · exact (login_classification _).2.1 rfl (by decide)
  · exact (login_classification _).2.2 rfl (by decide)

/-- Claim C2: `extract_form_data` returns `None` when no `POST` form
with the requested action exists; when the form is found, every hidden
input's name is present in the returned dictionary, a name occurring
once maps to its single value, and a name occurring more than once maps
to the list of its values in document order. -/
theorem extract_form_data_correct (page : Page) (action : String) :
    (page.forms.find? (formMatches action) = none →
      extract_form_data page action = none) ∧
    (∀ form fd, page.forms.find? (formMatches action) = some form →
      extract_form_data page action = some fd →
      ∀ k : Option String,
        (hiddenVals form k ≠ [] → (lookup fd k).isSome = true) ∧
        (∀ v, hiddenVals form k = [v] → lookup fd k = some (.single v)) ∧
        (2 ≤ (hiddenVals form k).length →
          lookup fd k = some (.multi (hiddenVals form k)))) := by
  constructor
  · intro h
    simp [extract_form_data, h]
  · intro form fd hfind hex k
    have hfd : fd = (hiddenPairs form).foldl dictStep [] := by
      rw [extract_form_data, hfind] at hex
      exact (Option.some_inj.mp hex).symm
    have hvals : valsIn fd k = hiddenVals form k := by
      rw [hfd, valsIn_build]
      simp [valsIn, lookup, hiddenVals]
    have hgood : ∀ e ∈ fd, goodFV e.2 := by
      rw [hfd]
      exact good_build _ _ (by simp)
    refine ⟨?_, ?_, ?_⟩
    · intro hne
      cases hl : lookup fd k with
      | none =>
        exfalso
        apply hne
        rw [← hvals, valsIn, hl]
      | some fv => simp
    · intro v hv
      rw [← hvals, valsIn] at hv
      cases hl : lookup fd k with
      | none => rw [hl] at hv; simp at hv
      | some fv =>
        rw [hl] at hv
        cases fv with
        | single w => simp at hv; rw [hv]
        | multi ws =>
          have hg : goodFV (FieldVal.multi ws) := lookup_good fd k _ hgood hl
          simp only at hv
          rw [hv] at hg
          simp [goodFV] at hg
    · intro hlen
      rw [← hvals, valsIn] at hlen
      cases hl : lookup fd k with
      | none => rw [hl] at hlen; simp at hlen
      | some fv =>
        rw [hl] at hlen
        cases fv with
        | single w => simp at hlen
        | multi ws =>
          simp only at hlen
          rw [← hvals, valsIn, hl]

theorem extract_form_data_correct_witness :
    lookup fdW (some "a") = some (.multi ["1", "2"]) ∧
    lookup fdW (some "b") = some (.single "") ∧
    extract_form_data pageNoForms "Medication" = none := by
  refine ⟨?_, ?_, ?_⟩
  · exact ((extract_form_data_correct pageW "Medication").2 formW fdW (by decide)
      (by decide) (some "a")).2.2 (by decide)
  · have h := ((extract_form_data_correct pageW "Medication").2 formW fdW (by decide)
      (by decide) (some "b")).2.1 "" (by decide)
    exact h
  · exact (extract_form_data_correct pageNoForms "Medication").1 (by decide)

/-- Claim C3: after the header row, a table row with at least two
cells yields a record with `can-order = "Yes"` and the checkbox value
as id when it has a checkbox and a drug-name heading; `can-order =
"No"` and a null id when it has a heading but no checkbox; and no
record at all when its second cell has no drug-name heading — such a
row is silently skipped by the table parse. -/
theorem medication_row_parsing :
    (∀ r : MedRow, 2 ≤ r.cellCount →
      (∀ v h, r.checkboxVal = some v → r.drugHeading = some h →
        parseRow r = some ⟨some v, pyStrip h, extractLastIssued r.detailText,
          extractLastRequested r.detailText, "Yes"⟩) ∧
      (∀ h, r.checkboxVal = none → r.drugHeading = some h →
        parseRow r = some ⟨none, pyStrip h, extractLastIssued r.detailText,
          extractLastRequested r.detailText, "No"⟩) ∧
      (r.drugHeading = none → parseRow r = none)) ∧
    (∀ hdr pre post (r : MedRow), r.drugHeading = none →
      parseMedTable (hdr :: (pre ++ r :: post))
        = parseMedTable (hdr :: (pre ++ post))) := by
  constructor
  · intro r hcells
    have hnc : ¬r.cellCount < 2 := by omega
    refine ⟨?_, ?_, ?_⟩
    · intro v h hv hh
      simp [parseRow, hnc, hv, hh]
    · intro h hv hh
      simp [parseRow, hnc, hv, hh]
    · intro hh
      simp [parseRow, hnc, hh]
  · intro hdr pre post r hh
    have hr : parseRow r = none := by
      unfold parseRow
      rw [hh]
      simp
    simp [parseMedTable, List.filterMap_append, hr]

theorem medication_row_parsing_witness :
    parseRow ⟨2, some "id7", some " Aspirin ", "Last Issued: 5 Jan 2023"⟩
      = some ⟨some "id7", "Aspirin", "5 Jan 2023", "", "Yes"⟩ ∧
    parseRow ⟨2, none, some "Ibuprofen", ""⟩
      = some ⟨none, "Ibuprofen", "", "", "No"⟩ ∧
    parseRow ⟨2, some "id9", none, ""⟩ = none ∧
    parseMedTable [⟨3, none, none, "hdr"⟩, ⟨2, some "id9", none, ""⟩] = [] := by
  refine ⟨?_, ?_, ?_, ?_⟩
  · have h := (medication_row_parsing.1
      ⟨2, some "id7", some " Aspirin ", "Last Issued: 5 Jan 2023"⟩
      (by decide)).1 "id7" " Aspirin " rfl rfl
    rwa [show pyStrip " Aspirin " = "Aspirin" by decide,
      show extractLastIssued "Last Issued: 5 Jan 2023" = "5 Jan 2023" by decide,
      show extractLastRequested "Last Issued: 5 Jan 2023" = "" by decide] at h
  · have h := (medication_row_parsing.1 ⟨2, none, some "Ibuprofen", ""⟩
      (by decide)).2.1 "Ibuprofen" rfl rfl
    rwa [show pyStrip "Ibuprofen" = "Ibuprofen" by decide,
      show extractLastIssued "" = "" by decide,
      show extractLastRequested "" = "" by decide] at h
  · exact (medication_row_parsing.1 ⟨2, some "id9", none, ""⟩ (by decide)).2.2 rfl
  · exact medication_row_parsing.2 ⟨3, none, none, "hdr"⟩ [] [] ⟨2, some "id9", none, ""⟩ rfl

theorem searchPat_some_drop (lit : List Char) (yk : Nat) (l g : List Char)
    (h : searchPat lit yk l = some g) :
    ∃ i, matchPatAt lit yk (l.drop i) = some g := by
  induction l with
  | nil => exact ⟨0, h⟩
  | cons c rest ih =>
    rw [searchPat] at h
    cases hm : matchPatAt lit yk (c :: rest) with
    | some g2 =>
      rw [hm] at h
      cases h
      exact ⟨0, hm⟩
    | none =>
      rw [hm] at h
      obtain ⟨i, hi⟩ := ih h
      exact ⟨i + 1, by simpa using hi⟩

/-- Claim C4: the last-issued date is extracted by the
day/3-letter-month/4-digit-year pattern after `Last Issued:` and the
last-requested date by the day/3-letter-month/2-digit-year pattern
after `Last requested`; on the sample inputs the sample dates come
out, and a string in which no position matches the pattern yields the
empty string (the extraction is total — every string produces either a
matched group or `""`). -/
theorem date_extraction :
    extractLastIssued "Last Issued: 5 Jan 2023" = "5 Jan 2023" ∧
    extractLastRequested "Last requested 5 Jan 23" = "5 Jan 23" ∧
    extractLastIssued "no dates in sight" = "" ∧
    extractLastRequested "no dates in sight" = "" ∧
    (∀ s : String, extractLastIssued s = "" ∨
      ∃ i g, matchPatAt "Last Issued:".data 4 (s.data.drop i) = some g ∧
        extractLastIssued s = ⟨g⟩) ∧
    (∀ s : String, extractLastRequested s = "" ∨
      ∃ i g, matchPatAt "Last requested".data 2 (s.data.drop i) = some g ∧
        extractLastRequested s = ⟨g⟩) := by
  refine ⟨by decide, by decide, by decide, by decide, ?_, ?_⟩
  · intro s
    cases h : searchPat "Last Issued:".data 4 s.data with
    | none =>
      left
      simp [extractLastIssued, h]
    | some g =>
      right
      obtain ⟨i, hi⟩ := searchPat_some_drop _ _ _ _ h
      exact ⟨i, g, hi, by simp [extractLastIssued, h]⟩
  · intro s
    cases h : searchPat "Last requested".data 2 s.data with
    | none =>
      left
      simp [extractLastRequested, h]
    | some g =>
      right
      obtain ⟨i, hi⟩ := searchPat_some_drop _ _ _ _ h
      exact ⟨i, g, hi, by simp [extractLastRequested, h]⟩

/-- Claim C5: with a non-empty selection, `order_medications` reports
failure and returns early when a hidden-state extraction yields
`None` — before the first POST if the first extraction fails, before
the second POST if the second fails — and when both extractions
succeed it reports success exactly when the second response is OK at
the HTTP level, with the result independent of that response's body. -/
theorem order_medications_result (ids : List String) (env : OrderEnv)
    (hne : ids ≠ []) :
    (extract_form_data env.page0 "RequestMedication" = none →
      (order_medications ids env).1 = .formMissing1 ∧
      postCount (order_medications ids env).2.1 = 0) ∧
    (isFalsy (extract_form_data env.page0 "RequestMedication") = false →
      extract_form_data env.resp1.page "RequestMedication" = none →
      (order_medications ids env).1 = .formMissing2 ∧
      postCount (order_medications ids env).2.1 = 1) ∧
    (isFalsy (extract_form_data env.page0 "RequestMedication") = false →
      isFalsy (extract_form_data env.resp1.page "RequestMedication") = false →
      ((order_medications ids env).1 = .submitted true ↔ env.resp2.ok = true) ∧
      (∀ p : Page,
        (order_medications ids
          { env with resp2 := ⟨env.resp2.url, p, env.resp2.ok⟩ }).1
          = (order_medications ids env).1)) := by
  refine ⟨?_, ?_, ?_⟩
  · intro h1
    have hf : isFalsy (extract_form_data env.page0 "RequestMedication") = true := by
      rw [h1]
      rfl
    simp [order_medications, hne, hf, postCount]
  · intro h1 h2
    have hf : isFalsy (extract_form_data env.resp1.page "RequestMedication") = true := by
      rw [h2]
      rfl
    simp [order_medications, hne, h1, hf, postCount]
  · intro h1 h2
    constructor
    · simp [order_medications, hne, h1, h2]
    · intro p
      simp [order_medications, hne, h1, h2]

theorem order_medications_result_witness :
    (order_medications ["id1"] ⟨pageNoForms, ⟨"u", pageRM, true⟩,
      ⟨"u", pageNoForms, true⟩⟩).1 = .formMissing1 ∧
    (order_medications ["id1"] ⟨pageRM, ⟨"u", pageNoForms, true⟩,
      ⟨"u", pageNoForms, true⟩⟩).1 = .formMissing2 ∧
    ((order_medications ["id1"] ⟨pageRM, ⟨"u", pageRM, true⟩,
      ⟨"u", pageNoForms, true⟩⟩).1 = .submitted true ↔ (true : Bool) = true) := by
  refine ⟨?_, ?_, ?_⟩
  · exact ((order_medications_result ["id1"] _ (by decide)).1 (by decide)).1
  · exact ((order_medications_result ["id1"] _ (by decide)).2.1 (by decide)
      (by decide)).1
  · exact ((order_medications_result ["id1"] _ (by decide)).2.2 (by decide)
      (by decide)).1

/-- Claim C6: every POST of the order flow happens with hidden state
freshly extracted from the most recent server response: walking the
event trace of `order_medications`, whenever a POST occurs, the most
recent extraction read exactly the page of the most recent response,
and no submission reuses state captured before an earlier response. -/
theorem order_medications_fresh (ids : List String) (env : OrderEnv) :
    freshOK (order_medications ids env).2.1 env.page0 false = true := by
  by_cases hids : ids = []
  · simp [order_medications, hids, freshOK]
  · cases h1 : isFalsy (extract_form_data env.page0 "RequestMedication") with
    | true => simp [order_medications, hids, h1, freshOK]
    | false =>
      cases h2 : isFalsy (extract_form_data env.resp1.page "RequestMedication") with
      | true => simp [order_medications, hids, h1, h2, freshOK]
      | false => simp [order_medications, hids, h1, h2, freshOK]

/-- Claim C7: with an empty selection, `order_medications` performs no
extraction and no POST (its event trace is empty), reports the
no-medications-selected outcome, and leaves the held page unchanged. -/
theorem order_medications_empty (env : OrderEnv) :
    order_medications [] env = (.noSelection, [], env.page0) := by
  simp [order_medications]

theorem mapOpt_eq_none {α β : Type} (f : α → Option β) (l : List α) (a : α)
    (ha : a ∈ l) (hf : f a = none) : mapOpt f l = none := by
  induction l with
  | nil => cases ha
  | cons b rest ih =>
    rw [mapOpt]
    rcases List.mem_cons.mp ha with h | h
    · subst h
      rw [hf]
    · cases hb : f b with
      | none => rfl
      | some c => simp [ih h]

/-- Claim C8: an interactive input containing a non-integer entry makes
`prompt_order_medications` return the empty selection with the
invalid-input message (the `ValueError` is caught, no crash), and the
subsequent ordering step on that empty selection takes the
no-medications-selected path. -/
theorem prompt_invalid_input (input : String) (table : List MedRecord)
    (h : ∃ piece ∈ splitComma input.data, pyIntStripped piece = none) :
    prompt_order_medications input table = .selection [] true ∧
    (∀ env : OrderEnv, (order_medications [] env).1 = .noSelection) := by
  obtain ⟨piece, hmem, hnone⟩ := h
  have hp : parseIndices input = none := by
    unfold parseIndices
    exact mapOpt_eq_none _ _ piece hmem (by rw [hnone]; rfl)
  constructor
  · simp [prompt_order_medications, hp]
  · intro env
    simp [order_medications]

theorem prompt_invalid_input_witness :
    prompt_order_medications "1,a" [medW] = .selection [] true := by
  exact (prompt_invalid_input "1,a" [medW] ⟨"a".data, by decide, by decide⟩).1

/-- Claim C9: a present `POST` form with zero hidden inputs makes
`extract_form_data` return the empty dictionary, and both callers treat
that empty result exactly like the absent-form `None`: either way
`query_medications` reports the unable-to-retrieve outcome and
`order_medications` aborts before any POST. -/
theorem empty_hidden_form_indistinguishable :
    (∀ page action form, page.forms.find? (formMatches action) = some form →
      hiddenPairs form = [] → extract_form_data page action = some []) ∧
    (∀ page medPage,
      (extract_form_data page "Medication" = none ∨
       extract_form_data page "Medication" = some []) →
      query_medications page medPage = .unableToRetrieve) ∧
    (∀ ids env, ids ≠ [] →
      (extract_form_data env.page0 "RequestMedication" = none ∨
       extract_form_data env.page0 "RequestMedication" = some []) →
      (order_medications ids env).1 = .formMissing1 ∧
      postCount (order_medications ids env).2.1 = 0) := by
  refine ⟨?_, ?_, ?_⟩
  · intro page action form hfind hempty
    simp [extract_form_data, hfind, hempty]
  · intro page medPage h
    have hf : isFalsy (extract_form_data page "Medication") = true := by
      rcases h with h | h <;> rw [h] <;> rfl
    simp [query_medications, hf]
  · intro ids env hne h
    have hf : isFalsy (extract_form_data env.page0 "RequestMedication") = true := by
      rcases h with h | h <;> rw [h] <;> rfl
    simp [order_medications, hne, hf, postCount]

theorem empty_hidden_form_indistinguishable_witness :
    extract_form_data pageEmptyMed "Medication" = some [] ∧
    query_medications pageEmptyMed pageNoForms = .unableToRetrieve ∧
    query_medications pageNoForms pageNoForms = .unableToRetrieve ∧
    (order_medications ["id1"] ⟨pageEmptyRM, ⟨"u", pageRM, true⟩,
      ⟨"u", pageRM, true⟩⟩).1 = .formMissing1 := by
  refine ⟨?_, ?_, ?_, ?_⟩
  · exact empty_hidden_form_indistinguishable.1 pageEmptyMed "Medication"
      ⟨"POST", "Medication", [⟨some "TEXT", some "c", some "x"⟩]⟩
      (by decide) (by decide)
  · exact empty_hidden_form_indistinguishable.2.1 pageEmptyMed pageNoForms
      (Or.inr (by decide))
  · exact empty_hidden_form_indistinguishable.2.1 pageNoForms pageNoForms
      (Or.inl (by decide))
  · exact (empty_hidden_form_indistinguishable.2.2 ["id1"] _ (by decide)
      (Or.inr (by decide))).1

/-- Claim C10: the prompt's no-crash guarantee covers only non-integer
input: the all-integer input `"5"` against a one-row table parses
successfully but names an out-of-range position, and the prompt ends
in the uncaught `IndexError` outcome rather than a reported message. -/
theorem prompt_out_of_range_reachable :
    parseIndices "5" = some [4] ∧
    prompt_order_medications "5" [medW] = .indexError := by
  constructor
  · decide
  · decide

end SystmOnline
